import Mathlib

/-
Shallow embedding of the discount / order-pricing calculator of the Saleor
repository (modules `saleor/discount/utils.py` and
`saleor/order/base_calculations.py`).  Monetary amounts are modelled as exact
rationals; currencies in scope have a two-decimal minor unit.  Database rows
are modelled as fields of explicit state structures and persisted bulk
operations as pure state transformers.
-/

set_option autoImplicit false

namespace Saleor

/-- Modelled from the spec: `quantize_price` (module `saleor.core.prices`, not
under `src/`) quantizes an amount to the currency's minor unit, rounding
half-up (ties away from zero, `ROUND_HALF_UP`); we model the two-decimal
minor unit. -/
def quantize_price (q : ℚ) : ℚ :=
  if q < 0 then -((⌊(-q) * 100 + 1 / 2⌋ : ℚ) / 100)
  else ((⌊q * 100 + 1 / 2⌋ : ℚ) / 100)

/-- Discount value types (`DiscountValueType` in `saleor/discount`). -/
inductive DiscountValueType where
  | FIXED
  | PERCENTAGE
deriving DecidableEq, Repr, Inhabited

/-- Discount record types (`DiscountType` in `saleor/discount`). -/
inductive DiscountType where
  | PROMOTION
  | ORDER_PROMOTION
  | VOUCHER
  | MANUAL
deriving DecidableEq, Repr, Inhabited

/-- Voucher applicability scopes (`VoucherType` in `saleor/discount`). -/
inductive VoucherType where
  | ENTIRE_ORDER
  | SHIPPING
  | SPECIFIC_PRODUCT
deriving DecidableEq, Repr, Inhabited

/-- Reward types of order promotion rules (`RewardType`). -/
inductive RewardType where
  | SUBTOTAL_DISCOUNT
  | GIFT
deriving DecidableEq, Repr, Inhabited

/-- Modelled from the spec: `prices.fixed_discount` (third-party `prices`
library, not under `src/`) subtracts the discount from the price, floored at
the currency's zero value (never negative). -/
def fixed_discount (base discount : ℚ) : ℚ :=
  max (base - discount) 0

/-- Modelled from the spec: `prices.percentage_discount` (third-party `prices`
library, not under `src/`) multiplies the price by `(1 - percentage/100)`,
rounding half-up to the currency's minor unit. -/
def percentage_discount (base percentage : ℚ) : ℚ :=
  quantize_price (base * (1 - percentage / 100))

/-- Embedding of `apply_discount_to_value` from `saleor/discount/utils.py`:
dispatch on the value type, `FIXED` uses `fixed_discount` with the value as
money, anything else uses `percentage_discount` with `ROUND_HALF_UP`. -/
def apply_discount_to_value (value : ℚ) (value_type : DiscountValueType)
    (price_to_discount : ℚ) : ℚ :=
  match value_type with
  | .FIXED => fixed_discount price_to_discount value
  | .PERCENTAGE => percentage_discount price_to_discount value

/-- Order line state: the mutable price fields of `OrderLine` touched by
`saleor/order/base_calculations.py`. -/
structure OrderLine where
  quantity : ℕ
  total_price_net_amount : ℚ
  total_price_gross_amount : ℚ
  undiscounted_total_price_net_amount : ℚ
  base_unit_price_amount : ℚ
  unit_price_net_amount : ℚ
  unit_price_gross_amount : ℚ
  unit_discount_amount : ℚ
deriving DecidableEq, Repr, Inhabited

/-- Embedding of `base_order_subtotal`: sum of `base_unit_price * quantity`
over the lines, quantized to the currency. -/
def base_order_subtotal (lines : List OrderLine) : ℚ :=
  quantize_price ((lines.map (fun l => l.base_unit_price_amount * (l.quantity : ℚ))).sum)

/-- Embedding of `apply_discount_to_order_line`: floor the new total price at
zero, recompute unit price and per-unit discount. -/
def apply_discount_to_order_line (line : OrderLine) (line_discount : ℚ) : OrderLine :=
  let total_price := max (line.total_price_net_amount - line_discount) 0
  let unit_price := total_price / (line.quantity : ℚ)
  let unit_discount := line_discount / (line.quantity : ℚ)
  { line with
    total_price_net_amount := total_price
    total_price_gross_amount := total_price
    base_unit_price_amount := unit_price
    unit_price_net_amount := unit_price
    unit_price_gross_amount := unit_price
    unit_discount_amount := unit_discount }

/-- The proportional per-line discount assigned to a non-last line by
`apply_subtotal_discount_to_order_lines`: `quantize_price(share * discount)`
with `share = line.total_price_net_amount / undiscounted_subtotal`. -/
def assigned_line_discount (undiscounted_subtotal subtotal_discount : ℚ)
    (line : OrderLine) : ℚ :=
  quantize_price (line.total_price_net_amount / undiscounted_subtotal * subtotal_discount)

/-- The loop of `apply_subtotal_discount_to_order_lines` over `enumerate(lines)`:
every line with `idx < lines_count - 1` receives its proportional share, the
last line is left untouched at this stage. -/
def discount_lines_but_last (undiscounted_subtotal subtotal_discount : ℚ) :
    List OrderLine → List OrderLine
  | [] => []
  | [line] => [line]
  | line :: rest =>
      apply_discount_to_order_line line
        (assigned_line_discount undiscounted_subtotal subtotal_discount line)
        :: discount_lines_but_last undiscounted_subtotal subtotal_discount rest

/-- Mutation of `lines[-1]` performed by
`_ensure_order_lines_prices_sum_up_to_order_prices`: apply the given discount
to the last line of the list. -/
def apply_last_line_discount (line_discount : ℚ) : List OrderLine → List OrderLine
  | [] => []
  | [line] => [apply_discount_to_order_line line line_discount]
  | line :: rest => line :: apply_last_line_discount line_discount rest

/-- Embedding of `_ensure_order_lines_prices_sum_up_to_order_prices`: the last
line receives `subtotal_discount` minus the discounts already carried by the
other lines (undiscounted total minus current total). -/
def ensure_order_lines_prices_sum_up_to_order_prices
    (lines : List OrderLine) (subtotal_discount : ℚ) : List OrderLine :=
  let other_lines_discount :=
    ((lines.dropLast).map
      (fun line => line.undiscounted_total_price_net_amount - line.total_price_net_amount)).sum
  apply_last_line_discount (subtotal_discount - other_lines_discount) lines

/-- Embedding of `apply_subtotal_discount_to_order_lines`: a single line takes
the whole discount; multiple lines are discounted proportionally except the
last, which absorbs the remainder. -/
def apply_subtotal_discount_to_order_lines
    (lines : List OrderLine) (undiscounted_subtotal subtotal_discount : ℚ) :
    List OrderLine :=
  match lines with
  | [] => []
  | [line] => [apply_discount_to_order_line line subtotal_discount]
  | _ :: _ :: _ =>
      ensure_order_lines_prices_sum_up_to_order_prices
        (discount_lines_but_last undiscounted_subtotal subtotal_discount lines)
        subtotal_discount

/-- Realized discount of a line: undiscounted line total minus current line
total, the measure used by the reconciliation invariant. -/
def realized_line_discount (line : OrderLine) : ℚ :=
  line.undiscounted_total_price_net_amount - line.total_price_net_amount

/-- Sum of realized per-line discounts over a list of lines. -/
def realized_discounts_sum (lines : List OrderLine) : ℚ :=
  (lines.map realized_line_discount).sum

/-- Last line of a list of order lines, `lines[-1]` of the source. -/
def last_line (lines : List OrderLine) : OrderLine :=
  (lines.getLast?).getD default

/-- Goes with the amended C1 claim: the zero floor of
`apply_discount_to_order_line` is never hit, i.e. every per-line discount the
algorithm assigns stays within the line's current total (the single line takes
the whole discount; with several lines each non-last line takes its quantized
proportional share and the last line the remainder). -/
def no_floor_hit (lines : List OrderLine) (undiscounted_subtotal subtotal_discount : ℚ) :
    Prop :=
  (lines.length = 1 → subtotal_discount ≤ (last_line lines).total_price_net_amount)
  ∧ (2 ≤ lines.length →
      (∀ line ∈ lines.dropLast,
        assigned_line_discount undiscounted_subtotal subtotal_discount line
          ≤ line.total_price_net_amount)
      ∧ subtotal_discount
          - ((lines.dropLast).map
              (assigned_line_discount undiscounted_subtotal subtotal_discount)).sum
          ≤ (last_line lines).total_price_net_amount)

/-- Voucher model fields read by `saleor/discount/utils.py`; `usage_limit = 0`
models a falsy limit (`None` or `0` in Python). -/
structure Voucher where
  type : VoucherType
  usage_limit : ℕ
  apply_once_per_customer : Bool
  single_use : Bool
deriving DecidableEq, Repr, Inhabited

/-- Voucher code model fields read by `saleor/discount/utils.py`. -/
structure VoucherCode where
  code : String
  voucher_id : ℕ
  used : ℤ
  is_active : Bool
deriving DecidableEq, Repr, Inhabited

/-- Embedding of `increase_voucher_code_usage_value`: increase uses by 1. -/
def increase_voucher_code_usage_value (code : VoucherCode) : VoucherCode :=
  { code with used := code.used + 1 }

/-- Embedding of `decrease_voucher_code_usage_value`: decrease uses by 1. -/
def decrease_voucher_code_usage_value (code : VoucherCode) : VoucherCode :=
  { code with used := code.used - 1 }

/-- Embedding of `deactivate_voucher_code`: mark the code as used. -/
def deactivate_voucher_code (code : VoucherCode) : VoucherCode :=
  { code with is_active := false }

/-- Embedding of `activate_voucher_code`: mark the code as unused. -/
def activate_voucher_code (code : VoucherCode) : VoucherCode :=
  { code with is_active := true }

/-- Embedding of `add_voucher_usage_by_customer`: the `VoucherCustomer` table
is a list of (voucher code string, customer email) rows; `get_or_create` adds
a row, and an existing row raises `NotApplicable` (modelled as `Except.error`
carrying the message). -/
def add_voucher_usage_by_customer (code : VoucherCode) (customer_email : String)
    (rows : List (String × String)) : Except String (List (String × String)) :=
  if (code.code, customer_email) ∈ rows then
    .error "This offer is only valid once per customer."
  else
    .ok (rows ++ [(code.code, customer_email)])

/-- Embedding of `remove_voucher_usage_by_customer`: delete every matching
(voucher code, customer email) row. -/
def remove_voucher_usage_by_customer (code : VoucherCode) (customer_email : String)
    (rows : List (String × String)) : List (String × String) :=
  rows.filter (fun r => ¬(r.1 = code.code ∧ r.2 = customer_email))

/-- Embedding of `increase_voucher_usage`: bump the code's counter when the
voucher has a usage limit, record the per-customer usage when tracking is
requested, deactivate a single-use code.  A raised `NotApplicable` aborts
the flow (`Except.error`). -/
def increase_voucher_usage (voucher : Voucher) (code : VoucherCode)
    (customer_email : String) (increase_voucher_customer_usage : Bool)
    (rows : List (String × String)) :
    Except String (VoucherCode × List (String × String)) :=
  let code :=
    if voucher.usage_limit ≠ 0 then increase_voucher_code_usage_value code else code
  match
    (if voucher.apply_once_per_customer && increase_voucher_customer_usage then
      add_voucher_usage_by_customer code customer_email rows
    else .ok rows) with
  | .error e => .error e
  | .ok rows =>
      let code := if voucher.single_use then deactivate_voucher_code code else code
      .ok (code, rows)

/-- Embedding of `release_voucher_code_usage`: no-op without a code; decrement
the counter when the voucher has a usage limit, reactivate a single-use code,
and delete the customer-usage row when the email is truthy. -/
def release_voucher_code_usage (code : Option VoucherCode) (voucher : Option Voucher)
    (user_email : Option String) (rows : List (String × String)) :
    Option VoucherCode × List (String × String) :=
  match code with
  | none => (none, rows)
  | some code =>
      let code :=
        match voucher with
        | some v => if v.usage_limit ≠ 0 then decrease_voucher_code_usage_value code else code
        | none => code
      let code :=
        match voucher with
        | some v => if v.single_use then activate_voucher_code code else code
        | none => code
      let rows :=
        match user_email with
        | some e => if e ≠ "" then remove_voucher_usage_by_customer code e rows else rows
        | none => rows
      (some code, rows)

/-- Embedding of `get_voucher_code_instance`.  Modelled from the spec where
the ORM query is concerned: `Voucher.objects.active_in_channel` (manager code
not under `src/`) is modelled by the list of ids of vouchers active in the
channel; the lookup succeeds exactly when one of them owns a code row whose
string matches and whose `is_active` flag is true, else it raises
`InvalidPromoCode`. -/
def get_voucher_code_instance (active_voucher_ids : List ℕ) (codes : List VoucherCode)
    (voucher_code : String) : Except String VoucherCode :=
  if codes.any (fun c =>
      c.code == voucher_code && c.is_active && active_voucher_ids.contains c.voucher_id) then
    match codes.find? (fun c => c.code == voucher_code) with
    | some c => .ok c
    | none => .error "InvalidPromoCode"
  else
    .error "InvalidPromoCode"

/-- Order discount record fields read by `apply_order_discounts`
(`OrderDiscount` model). -/
structure OrderDiscount where
  type : DiscountType
  value_type : DiscountValueType
  value : ℚ
  voucher : Option Voucher
  amount : ℚ
deriving DecidableEq, Repr, Inhabited

/-- Body of the discount loop of `apply_order_discounts` in
`saleor/order/base_calculations.py` for one order discount: voucher discounts
hit the component matching the voucher type, manual percentage discounts hit
subtotal and shipping independently, any other manual discount is applied to
the combined total and split proportionally, guarded against a non-positive
combined total. -/
def apply_order_discount_step (subtotal shipping : ℚ) (order_discount : OrderDiscount) :
    ℚ × ℚ :=
  match order_discount.type with
  | .VOUCHER =>
      (match order_discount.voucher with
      | some voucher =>
          let subtotal :=
            if voucher.type = .ENTIRE_ORDER then
              apply_discount_to_value order_discount.value order_discount.value_type subtotal
            else subtotal
          let shipping :=
            if voucher.type = .SHIPPING then
              apply_discount_to_value order_discount.value order_discount.value_type shipping
            else shipping
          (subtotal, shipping)
      | none => (subtotal, shipping))
  | .MANUAL =>
      if order_discount.value_type = .PERCENTAGE then
        (apply_discount_to_value order_discount.value order_discount.value_type subtotal,
         apply_discount_to_value order_discount.value order_discount.value_type shipping)
      else
        let temporary_undiscounted_total := subtotal + shipping
        if 0 < temporary_undiscounted_total then
          let temporary_total :=
            apply_discount_to_value order_discount.value order_discount.value_type
              temporary_undiscounted_total
          let total_discount := temporary_undiscounted_total - temporary_total
          let subtotal_discount := subtotal / temporary_undiscounted_total * total_discount
          let shipping_discount := total_discount - subtotal_discount
          (subtotal - subtotal_discount, shipping - shipping_discount)
        else (subtotal, shipping)
  | _ => (subtotal, shipping)

/-- Embedding of `apply_order_discounts`: fold the discount loop over the
order's discounts, starting from the base subtotal and base shipping price.
The recalculated per-record `amount` values (`shipping_discount_amount +
subtotal_discount_amount`) only feed a bulk persistence step, and the
`override_prices` propagation to lines is `apply_subtotal_discount_to_order_lines`
above; both are outside the returned prices. -/
def apply_order_discounts (order_discounts : List OrderDiscount)
    (subtotal shipping : ℚ) : ℚ × ℚ :=
  order_discounts.foldl
    (fun acc d => apply_order_discount_step acc.1 acc.2 d) (subtotal, shipping)

/-- Promotion model fields used by the embedded functions; `name` uses `""`
for a falsy (blank) name, `translation_name` models the translation lookup
result for the relevant language. -/
structure Promotion where
  id : ℕ
  name : String
  old_sale_id : Option ℕ
  translation_name : Option String
deriving DecidableEq, Repr, Inhabited

/-- Promotion rule model fields used by the embedded functions. -/
structure PromotionRule where
  id : ℕ
  promotion : Promotion
  name : String
  translation_name : Option String
  reward_value : ℚ
  reward_value_type : DiscountValueType
  reward_type : RewardType
deriving DecidableEq, Repr, Inhabited

/-- Modelled from the spec: `PromotionRule.get_discount` (models module not
under `src/`) converts the rule's reward value and value type into the
discount callable applied to a price (the §4.1 discount-value applier). -/
def PromotionRule.get_discount (rule : PromotionRule) (price : ℚ) : ℚ :=
  apply_discount_to_value rule.reward_value rule.reward_value_type price

/-- Channel fields used by the rule matcher. -/
structure Channel where
  id : ℕ
deriving DecidableEq, Repr, Inhabited

/-- Embedding of `PromotionRuleInfo` (rule plus the ids of its channels). -/
structure PromotionRuleInfo where
  rule : PromotionRule
  channel_ids : List ℕ
deriving DecidableEq, Repr, Inhabited

/-- Embedding of `get_product_discount_on_promotion`: the rule id and discount
callable when the channel belongs to the rule, else `NotApplicable` (modelled
as `none`; the caller catches it). -/
def get_product_discount_on_promotion (rule_info : PromotionRuleInfo) (channel : Channel) :
    Option (ℕ × (ℚ → ℚ)) :=
  if channel.id ∈ rule_info.channel_ids then
    some (rule_info.rule.id, rule_info.rule.get_discount)
  else
    none

/-- Embedding of `get_product_promotion_discounts`: yield the applicable
rules, skipping every `NotApplicable` one. -/
def get_product_promotion_discounts (rules_info : List PromotionRuleInfo)
    (channel : Channel) : List (ℕ × (ℚ → ℚ)) :=
  rules_info.filterMap (fun rule_info => get_product_discount_on_promotion rule_info channel)

/-- Python's `max(list, key=saving)` over a possibly empty list: `none` on the
empty list, else the first element of maximal saving (the accumulator is
replaced only on a strictly larger saving). -/
def best_of : List (ℕ × ℚ) → Option (ℕ × ℚ)
  | [] => none
  | x :: xs => some (xs.foldl (fun best cur => if best.2 < cur.2 then cur else best) x)

/-- Embedding of `get_best_promotion_discount`: among the applicable rules,
pick the `(rule_id, price - discount(price))` pair with the largest saving. -/
def get_best_promotion_discount (price : ℚ) (rules_info_for_variant : List PromotionRuleInfo)
    (channel : Channel) : Option (ℕ × ℚ) :=
  best_of ((get_product_promotion_discounts rules_info_for_variant channel).map
    (fun p => (p.1, price - p.2 price)))

/-- Variant channel listing fields read by `_get_discount_amount`. -/
structure ProductVariantChannelListing where
  price_amount : Option ℚ
  discounted_price_amount : Option ℚ
deriving DecidableEq, Repr, Inhabited

/-- Listing-rule relation fields read by `_get_rule_discount_amount`. -/
structure VariantListingPromotionRule where
  discount_amount : ℚ
deriving DecidableEq, Repr, Inhabited

/-- Embedding of `VariantPromotionRuleInfo`; the two translation fields model
the translation objects carried by the dataclass (their names). -/
structure VariantPromotionRuleInfo where
  rule : PromotionRule
  variant_listing_promotion_rule : Option VariantListingPromotionRule
  promotion : Promotion
  promotion_translation_name : Option String
  rule_translation_name : Option String
deriving DecidableEq, Repr, Inhabited

/-- Embedding of `get_discount_name`: both names joined when both are truthy,
else whichever is truthy (`rule.name or promotion.name`). -/
def get_discount_name (rule : PromotionRule) (promotion : Promotion) : String :=
  if promotion.name ≠ "" ∧ rule.name ≠ "" then
    promotion.name ++ ": " ++ rule.name
  else if rule.name ≠ "" then rule.name
  else promotion.name

/-- Embedding of `get_discount_translated_name`. -/
def get_discount_translated_name (rule_info : VariantPromotionRuleInfo) : Option String :=
  match rule_info.promotion_translation_name, rule_info.rule_translation_name with
  | some p, some r => some (p ++ ": " ++ r)
  | none, some r => some r
  | some p, none => some p
  | none, none => none

/-- Embedding of `get_sale_id`.  Modelled from the spec where the opaque
graphene global id is concerned: a tagged rendering of the numeric id. -/
def get_sale_id (promotion : Promotion) : String :=
  match promotion.old_sale_id with
  | some sid => "Sale:" ++ toString sid
  | none => "Promotion:" ++ toString promotion.id

/-- Embedding of `prepare_promotion_discount_reason`. -/
def prepare_promotion_discount_reason (promotion : Promotion) (sale_id : String) : String :=
  (if promotion.old_sale_id.isSome then "Sale: " else "Promotion: ") ++ sale_id

/-- Checkout line discount record (`CheckoutLineDiscount` model); `id = 0`
marks a freshly built record whose database id is assigned on `bulk_create`. -/
structure CheckoutLineDiscount where
  id : ℕ
  type : DiscountType
  promotion_rule_id : Option ℕ
  value_type : DiscountValueType
  value : ℚ
  amount_value : ℚ
  name : Option String
  translated_name : Option String
  reason : Option String
deriving DecidableEq, Repr, Inhabited

/-- Checkout line fields used by the catalogue-promotion sync. -/
structure CheckoutLine where
  quantity : ℕ
deriving DecidableEq, Repr, Inhabited

/-- Embedding of `CheckoutLineInfo`: the line, its channel listing, the
qualifying rules, and the in-memory discount records. -/
structure CheckoutLineInfo where
  line : CheckoutLine
  channel_listing : ProductVariantChannelListing
  rules_info : List VariantPromotionRuleInfo
  discounts : List CheckoutLineDiscount
deriving DecidableEq, Repr, Inhabited

/-- Modelled from the spec: `CheckoutLineInfo.get_promotion_discounts`
(checkout fetch module, not under `src/`) returns the line's discount records
of promotion type. -/
def get_promotion_discounts (line_info : CheckoutLineInfo) : List CheckoutLineDiscount :=
  line_info.discounts.filter (fun d => d.type = DiscountType.PROMOTION)

/-- Embedding of `_get_discount_amount`: zero without both listing prices or
when they agree, else the per-unit difference times the quantity. -/
def get_discount_amount (variant_channel_listing : ProductVariantChannelListing)
    (line_quantity : ℕ) : ℚ :=
  match variant_channel_listing.price_amount,
      variant_channel_listing.discounted_price_amount with
  | none, _ => 0
  | _, none => 0
  | some price_amount, some discounted_price_amount =>
      if price_amount = discounted_price_amount then 0
      else (price_amount - discounted_price_amount) * (line_quantity : ℚ)

/-- Embedding of `_get_rule_discount_amount`: the listing-rule discount times
the quantity, zero without a listing-rule relation. -/
def get_rule_discount_amount
    (variant_listing_promotion_rule : Option VariantListingPromotionRule)
    (line_quantity : ℕ) : ℚ :=
  match variant_listing_promotion_rule with
  | none => 0
  | some r => r.discount_amount * (line_quantity : ℚ)

/-- Upsert into an insertion-ordered association list, the Python `dict`
behaviour: an existing key keeps its position and takes the new value, a new
key is appended. -/
def dict_upsert (m : List (Option ℕ × CheckoutLineDiscount)) (k : Option ℕ)
    (v : CheckoutLineDiscount) : List (Option ℕ × CheckoutLineDiscount) :=
  if m.any (fun p => p.1 = k) then
    m.map (fun p => if p.1 = k then (k, v) else p)
  else
    m ++ [(k, v)]

/-- The `rule_id_to_discount` dict comprehension of
`create_discount_objects_for_catalogue_promotions`: keyed by
`promotion_rule_id`, a duplicated key keeps only the last record. -/
def rule_id_to_discount_dict (discounts : List CheckoutLineDiscount) :
    List (Option ℕ × CheckoutLineDiscount) :=
  discounts.foldl (fun m d => dict_upsert m d.promotion_rule_id d) []

/-- Lookup in the association list (`dict.get`). -/
def dict_get (m : List (Option ℕ × CheckoutLineDiscount)) (k : Option ℕ) :
    Option CheckoutLineDiscount :=
  (m.find? (fun p => p.1 = k)).map (fun p => p.2)

/-- Embedding of `_get_discounts_that_are_not_valid_anymore`: the ids of the
dict's records whose rule id is no longer among the qualifying rules'. -/
def get_discounts_that_are_not_valid_anymore
    (rules_info : List VariantPromotionRuleInfo)
    (rule_id_to_discount : List (Option ℕ × CheckoutLineDiscount)) : List ℕ :=
  (rule_id_to_discount.filter
    (fun p => p.1 ∉ rules_info.map (fun ri => some ri.rule.id))).map
    (fun p => p.2.id)

/-- Embedding of `_update_discount` at checkout-line-discount type: set every
mutable field to the rule's current data (the source also tracks which fields
actually changed, which only selects the persisted columns). -/
def update_line_discount (rule : PromotionRule) (rule_info : VariantPromotionRuleInfo)
    (rule_discount_amount : ℚ) (discount_to_update : CheckoutLineDiscount) :
    CheckoutLineDiscount :=
  { discount_to_update with
    promotion_rule_id := some rule.id
    value_type := rule.reward_value_type
    value := rule.reward_value
    amount_value := rule_discount_amount
    name := some (get_discount_name rule rule_info.promotion)
    translated_name := get_discount_translated_name rule_info
    reason := some (prepare_promotion_discount_reason rule_info.promotion
      (get_sale_id rule_info.promotion)) }

/-- Fresh checkout line discount record built for a rule the line qualifies
for but has no record of yet (`reason` is set to `None` on creation). -/
def new_line_discount (rule : PromotionRule) (rule_info : VariantPromotionRuleInfo)
    (rule_discount_amount : ℚ) : CheckoutLineDiscount :=
  { id := 0
    type := DiscountType.PROMOTION
    promotion_rule_id := some rule.id
    value_type := rule.reward_value_type
    value := rule.reward_value
    amount_value := rule_discount_amount
    name := some (get_discount_name rule rule_info.promotion)
    translated_name := get_discount_translated_name rule_info
    reason := none }

/-- Per-line outcome of the catalogue-promotion sync loop. -/
structure LineProcessResult where
  line_info : CheckoutLineInfo
  created : List CheckoutLineDiscount
  updated : List CheckoutLineDiscount
  removed_ids : List ℕ
deriving DecidableEq, Repr, Inhabited

/-- Rule loop of `create_discount_objects_for_catalogue_promotions` for one
line: create a record for a qualifying rule without one, else update the
existing record in place. -/
def process_line_rules (rules_info : List VariantPromotionRuleInfo)
    (rule_id_to_discount : List (Option ℕ × CheckoutLineDiscount))
    (line_quantity : ℕ) (discounts : List CheckoutLineDiscount) :
    List CheckoutLineDiscount × List CheckoutLineDiscount × List CheckoutLineDiscount :=
  rules_info.foldl
    (fun acc rule_info =>
      let rule := rule_info.rule
      let rule_discount_amount :=
        get_rule_discount_amount rule_info.variant_listing_promotion_rule line_quantity
      match dict_get rule_id_to_discount (some rule.id) with
      | none =>
          let line_discount := new_line_discount rule rule_info rule_discount_amount
          (acc.1 ++ [line_discount], acc.2.1 ++ [line_discount], acc.2.2)
      | some discount_to_update =>
          let d := update_line_discount rule rule_info rule_discount_amount discount_to_update
          (acc.1.map (fun r => if r.id = discount_to_update.id then d else r),
           acc.2.1, acc.2.2 ++ [d]))
    (discounts, [], [])

/-- Body of the line loop of `create_discount_objects_for_catalogue_promotions`:
a line whose catalogue discount amount is zero has all its promotion records
deleted and its in-memory list cleared; otherwise the stale records are
removed and every qualifying rule's record is created or updated. -/
def process_catalogue_line (line_info : CheckoutLineInfo) : LineProcessResult :=
  let discount_amount :=
    get_discount_amount line_info.channel_listing line_info.line.quantity
  let discounts_to_update := get_promotion_discounts line_info
  let rule_id_to_discount := rule_id_to_discount_dict discounts_to_update
  if discount_amount = 0 then
    { line_info := { line_info with discounts := [] }
      created := []
      updated := []
      removed_ids := discounts_to_update.map (fun d => d.id) }
  else
    let stale_ids :=
      get_discounts_that_are_not_valid_anymore line_info.rules_info rule_id_to_discount
    let remaining := line_info.discounts.filter (fun d => ¬ stale_ids.contains d.id)
    let processed :=
      process_line_rules line_info.rules_info rule_id_to_discount
        line_info.line.quantity remaining
    { line_info := { line_info with discounts := processed.1 }
      created := processed.2.1
      updated := processed.2.2
      removed_ids := stale_ids }

/-- Global outcome of the catalogue-promotion sync: the updated line infos and
the three bulk persistence sets. -/
structure CataloguePromotionResult where
  lines_info : List CheckoutLineInfo
  line_discounts_to_create : List CheckoutLineDiscount
  line_discounts_to_update : List CheckoutLineDiscount
  line_discount_ids_to_remove : List ℕ
deriving DecidableEq, Repr, Inhabited

/-- Embedding of `create_discount_objects_for_catalogue_promotions`: iterate
the line loop and collect all records to create, update and delete (the
source deletes a zero-amount line's records immediately and the stale ones in
one batch at the end; both are collected in `line_discount_ids_to_remove`,
with the same resulting state). -/
def create_discount_objects_for_catalogue_promotions
    (lines_info : List CheckoutLineInfo) : CataloguePromotionResult :=
  let results := lines_info.map process_catalogue_line
  { lines_info := results.map (fun r => r.line_info)
    line_discounts_to_create := (results.map (fun r => r.created)).flatten
    line_discounts_to_update := (results.map (fun r => r.updated)).flatten
    line_discount_ids_to_remove := (results.map (fun r => r.removed_ids)).flatten }

/-- Checkout-level discount record (`CheckoutDiscount` model). -/
structure CheckoutDiscount where
  type : DiscountType
  promotion_rule_id : Option ℕ
  value_type : DiscountValueType
  value : ℚ
  amount_value : ℚ
  name : Option String
  translated_name : Option String
  reason : Option String
deriving DecidableEq, Repr, Inhabited

/-- Checkout fields touched by the order-promotion flow; `voucher_code = none`
or `some ""` are both falsy. -/
structure Checkout where
  voucher_code : Option String
  discount_amount : ℚ
  discount_name : Option String
  translated_discount_name : Option String
  base_subtotal : ℚ
  base_total : ℚ
deriving DecidableEq, Repr, Inhabited

/-- Embedding of `CheckoutInfo`: the checkout and its in-memory discount list;
its `voucher_code` attribute mirrors the checkout's (fetch module not under
`src/`). -/
structure CheckoutInfo where
  checkout : Checkout
  discounts : List CheckoutDiscount
deriving DecidableEq, Repr, Inhabited

/-- Python truthiness of an optional string: `None` and `""` are falsy. -/
def truthy_code : Option String → Bool
  | none => false
  | some s => !(s == "")

/-- Embedding of `_set_checkout_base_prices`.  Modelled from the spec where
the collaborators are concerned: `base_checkout_subtotal` and
`base_checkout_delivery_price` (checkout base-calculations module, not under
`src/`) compute the voucher-excluded base subtotal and delivery price; their
results are taken as inputs. -/
def set_checkout_base_prices (subtotal shipping_price : ℚ) (checkout_info : CheckoutInfo) :
    CheckoutInfo :=
  let total := subtotal + shipping_price
  { checkout_info with
    checkout := { checkout_info.checkout with base_subtotal := subtotal, base_total := total } }

/-- Embedding of `_clear_checkout_discount`: with any in-memory discounts,
delete the checkout's ORDER_PROMOTION records (database and in-memory); with
no truthy voucher code, also reset the checkout's denormalized discount
amount and names (the `save` flag and the update-needed check only gate
persistence of the same resulting state). -/
def clear_checkout_discount (checkout_info : CheckoutInfo) (save : Bool) : CheckoutInfo :=
  let checkout_info :=
    if checkout_info.discounts = [] then checkout_info
    else
      { checkout_info with
        discounts := checkout_info.discounts.filter
          (fun d => d.type ≠ DiscountType.ORDER_PROMOTION) }
  if truthy_code checkout_info.checkout.voucher_code then checkout_info
  else
    { checkout_info with
      checkout := { checkout_info.checkout with
        discount_amount := 0
        discount_name := none
        translated_discount_name := none } }

/-- Embedding of `_create_or_update_checkout_discount`: `get_or_create` the
checkout's ORDER_PROMOTION record, update it to the winning rule's data, set
the in-memory list to that single record and the checkout's denormalized
discount fields to match. -/
def create_or_update_checkout_discount (checkout_info : CheckoutInfo)
    (best_rule : PromotionRule) (best_discount_amount : ℚ) (save : Bool) : CheckoutInfo :=
  let promotion := best_rule.promotion
  let rule_info : VariantPromotionRuleInfo :=
    { rule := best_rule
      variant_listing_promotion_rule := none
      promotion := promotion
      promotion_translation_name := promotion.translation_name
      rule_translation_name := best_rule.translation_name }
  let checkout_discount : CheckoutDiscount :=
    match checkout_info.discounts.find? (fun d => d.type = DiscountType.ORDER_PROMOTION) with
    | some d =>
        { d with
          promotion_rule_id := some best_rule.id
          value_type := best_rule.reward_value_type
          value := best_rule.reward_value
          amount_value := best_discount_amount
          name := some (get_discount_name best_rule promotion)
          translated_name := get_discount_translated_name rule_info
          reason := some (prepare_promotion_discount_reason promotion (get_sale_id promotion)) }
    | none =>
        { type := DiscountType.ORDER_PROMOTION
          promotion_rule_id := some best_rule.id
          value_type := best_rule.reward_value_type
          value := best_rule.reward_value
          amount_value := best_discount_amount
          name := some (get_discount_name best_rule promotion)
          translated_name := get_discount_translated_name rule_info
          reason := some (prepare_promotion_discount_reason promotion (get_sale_id promotion)) }
  { checkout_info with
    discounts := [checkout_discount]
    checkout := { checkout_info.checkout with
      discount_amount := best_discount_amount
      discount_name := checkout_discount.name
      translated_discount_name := checkout_discount.translated_name } }

/-- Embedding of `create_discount_objects_for_order_promotions`: set the base
prices, then either clear the discount (voucher set, or no applicable rule)
or select the rule with the greatest discount amount on the base subtotal and
create-or-update the checkout discount from it.  The rule list input models
the result of `fetch_promotion_rules_for_checkout` (an ORM predicate query). -/
def create_discount_objects_for_order_promotions (base_subtotal base_shipping : ℚ)
    (rules : List PromotionRule) (checkout_info : CheckoutInfo) (save : Bool) :
    CheckoutInfo :=
  let checkout_info := set_checkout_base_prices base_subtotal base_shipping checkout_info
  if truthy_code checkout_info.checkout.voucher_code then
    clear_checkout_discount checkout_info save
  else if rules = [] then
    clear_checkout_discount checkout_info save
  else
    let subtotal := checkout_info.checkout.base_subtotal
    let rule_with_discount_amount := rules.map (fun rule =>
      let price := if rule.reward_type = RewardType.SUBTOTAL_DISCOUNT then subtotal else 0
      (rule, price - rule.get_discount price))
    match rule_with_discount_amount with
    | [] => checkout_info
    | x :: xs =>
        let best := xs.foldl (fun b c => if b.2 < c.2 then c else b) x
        create_or_update_checkout_discount checkout_info best.1 best.2 save

/-- Composition of `increase_voucher_usage` with
`release_voucher_code_usage` on the same arguments: `none` when the increase
raises, else the code and customer-usage rows after the release. -/
def increase_then_release (voucher : Voucher) (code : VoucherCode)
    (customer_email : String) (rows : List (String × String)) :
    Option (VoucherCode × List (String × String)) :=
  match increase_voucher_usage voucher code customer_email true rows with
  | .error _ => none
  | .ok (c₁, rows₁) =>
      match release_voucher_code_usage (some c₁) (some voucher) (some customer_email) rows₁ with
      | (some c₂, rows₂) => some (c₂, rows₂)
      | (none, _) => none

/-
Concrete sample data for the witnesses.
-/

def sample_promotion : Promotion := ⟨1, "", none, none⟩

def sample_rule_a : PromotionRule :=
  ⟨7, sample_promotion, "", none, 5, DiscountValueType.FIXED, RewardType.SUBTOTAL_DISCOUNT⟩

def sample_rule_b : PromotionRule :=
  ⟨9, sample_promotion, "", none, 8, DiscountValueType.FIXED, RewardType.SUBTOTAL_DISCOUNT⟩

def sample_rule_off : PromotionRule :=
  ⟨3, sample_promotion, "", none, 50, DiscountValueType.PERCENTAGE,
    RewardType.SUBTOTAL_DISCOUNT⟩

def sample_rules_info : List PromotionRuleInfo :=
  [⟨sample_rule_a, [1]⟩, ⟨sample_rule_b, [1]⟩, ⟨sample_rule_off, [2]⟩]

def sample_order_promo_rec : CheckoutDiscount :=
  ⟨DiscountType.ORDER_PROMOTION, some 7, DiscountValueType.FIXED, 5, 5, some "p", none, none⟩

def sample_voucher_rec : CheckoutDiscount :=
  ⟨DiscountType.VOUCHER, none, DiscountValueType.FIXED, 3, 3, some "v", none, none⟩

def sample_checkout_voucher : CheckoutInfo :=
  ⟨⟨some "CODE", 5, some "Promo", some "PromoT", 0, 0⟩,
    [sample_order_promo_rec, sample_voucher_rec]⟩

def sample_checkout_no_voucher : CheckoutInfo :=
  ⟨⟨none, 7, some "X", some "Y", 0, 0⟩, [sample_order_promo_rec]⟩

def sample_line_disc_11 : CheckoutLineDiscount :=
  ⟨11, DiscountType.PROMOTION, some 5, DiscountValueType.FIXED, 5, 5, none, none, none⟩

def sample_line_disc_22 : CheckoutLineDiscount :=
  ⟨22, DiscountType.PROMOTION, some 5, DiscountValueType.FIXED, 5, 5, none, none, none⟩

def sample_line_zero : CheckoutLineInfo :=
  ⟨⟨1⟩, ⟨some 10, some 10⟩, [], [sample_line_disc_11]⟩

def sample_line_live : CheckoutLineInfo :=
  ⟨⟨1⟩, ⟨some 10, some 8⟩, [⟨sample_rule_a, some ⟨2⟩, sample_promotion, none, none⟩],
    [sample_line_disc_22]⟩

/-
Theorems.  Helper lemmas come first, then one theorem per claim (with its
witness or counterexample where required).
-/

lemma apply_discount_to_order_line_und (line : OrderLine) (d : ℚ) :
    (apply_discount_to_order_line line d).undiscounted_total_price_net_amount
      = line.undiscounted_total_price_net_amount := rfl

lemma apply_discount_to_order_line_total_of_le (line : OrderLine) (d : ℚ)
    (h : d ≤ line.total_price_net_amount) :
    (apply_discount_to_order_line line d).total_price_net_amount
      = line.total_price_net_amount - d := by
  show max (line.total_price_net_amount - d) 0 = line.total_price_net_amount - d
  exact max_eq_left (sub_nonneg.mpr h)

lemma realized_line_discount_apply (line : OrderLine) (d : ℚ)
    (h : d ≤ line.total_price_net_amount) :
    realized_line_discount (apply_discount_to_order_line line d)
      = realized_line_discount line + d := by
  unfold realized_line_discount
  rw [apply_discount_to_order_line_und, apply_discount_to_order_line_total_of_le line d h]
  ring

lemma realized_discounts_sum_append (l₁ l₂ : List OrderLine) :
    realized_discounts_sum (l₁ ++ l₂)
      = realized_discounts_sum l₁ + realized_discounts_sum l₂ := by
  simp [realized_discounts_sum]

lemma realized_discounts_sum_singleton (line : OrderLine) :
    realized_discounts_sum [line] = realized_line_discount line := by
  simp [realized_discounts_sum]

lemma apply_last_line_discount_concat (d : ℚ) (init : List OrderLine) (b : OrderLine) :
    apply_last_line_discount d (init ++ [b])
      = init ++ [apply_discount_to_order_line b d] := by
  induction init with
  | nil => rfl
  | cons a init ih =>
      cases init with
      | nil => rfl
      | cons c init' =>
          show a :: apply_last_line_discount d ((c :: init') ++ [b])
              = a :: ((c :: init') ++ [apply_discount_to_order_line b d])
          rw [ih]

lemma discount_lines_but_last_concat (u D : ℚ) (init : List OrderLine) (b : OrderLine) :
    discount_lines_but_last u D (init ++ [b])
      = init.map (fun l => apply_discount_to_order_line l (assigned_line_discount u D l))
          ++ [b] := by
  induction init with
  | nil => rfl
  | cons a init ih =>
      cases init with
      | nil => rfl
      | cons c init' =>
          show apply_discount_to_order_line a (assigned_line_discount u D a)
                :: discount_lines_but_last u D ((c :: init') ++ [b])
              = apply_discount_to_order_line a (assigned_line_discount u D a)
                :: ((c :: init').map
                      (fun l => apply_discount_to_order_line l (assigned_line_discount u D l))
                    ++ [b])
          rw [ih]

lemma last_line_concat (init : List OrderLine) (b : OrderLine) :
    last_line (init ++ [b]) = b := by
  simp [last_line, List.getLast?_concat]

lemma ensure_sum_concat (init : List OrderLine) (b : OrderLine) (D : ℚ)
    (hfloor : D - realized_discounts_sum init ≤ b.total_price_net_amount) :
    realized_discounts_sum
        (ensure_order_lines_prices_sum_up_to_order_prices (init ++ [b]) D)
      = D + realized_line_discount b := by
  simp only [ensure_order_lines_prices_sum_up_to_order_prices]
  rw [List.dropLast_concat]
  have hother :
      ((init.map
        (fun line => line.undiscounted_total_price_net_amount
          - line.total_price_net_amount)).sum) = realized_discounts_sum init := rfl
  rw [hother, apply_last_line_discount_concat, realized_discounts_sum_append,
    realized_discounts_sum_singleton, realized_line_discount_apply b _ hfloor]
  ring

/-- C1 (amended): provided every line enters with its total equal to its
undiscounted total and no per-line discount assigned by the algorithm exceeds
the line's total (the zero floor is not hit), `apply_subtotal_discount_to_order_lines`
distributes the subtotal discount so that the sum of realized per-line
discounts (undiscounted line total minus resulting line total) equals the
subtotal discount exactly: the single line takes it whole, each non-last line
takes its quantized proportional share and the last line the remainder. -/
theorem apply_subtotal_discount_distributes_exactly
    (lines : List OrderLine) (undiscounted_subtotal subtotal_discount : ℚ)
    (hne : lines ≠ [])
    (hund : ∀ line ∈ lines,
      line.total_price_net_amount = line.undiscounted_total_price_net_amount)
    (hfloor : no_floor_hit lines undiscounted_subtotal subtotal_discount) :
    realized_discounts_sum
        (apply_subtotal_discount_to_order_lines lines undiscounted_subtotal
          subtotal_discount)
      = subtotal_discount := by
  cases lines with
  | nil => exact absurd rfl hne
  | cons l1 tail =>
    cases tail with
    | nil =>
        have hf : subtotal_discount ≤ l1.total_price_net_amount := by
          simpa [last_line] using hfloor.1 rfl
        have hu := hund l1 (by simp)
        show realized_discounts_sum [apply_discount_to_order_line l1 subtotal_discount]
            = subtotal_discount
        rw [realized_discounts_sum_singleton, realized_line_discount_apply l1 _ hf]
        simp [realized_line_discount, hu]
    | cons l2 rest =>
        rcases List.eq_nil_or_concat (l2 :: rest) with h | ⟨mid, b, heq⟩
        · exact absurd h (by simp)
        rw [List.concat_eq_append] at heq
        have hlines : l1 :: l2 :: rest = (l1 :: mid) ++ [b] := by
          rw [heq]; simp
        show realized_discounts_sum
            (ensure_order_lines_prices_sum_up_to_order_prices
              (discount_lines_but_last undiscounted_subtotal subtotal_discount
                (l1 :: l2 :: rest))
              subtotal_discount)
            = subtotal_discount
        rw [hlines] at hund hfloor ⊢
        rw [discount_lines_but_last_concat]
        have hlen : 2 ≤ ((l1 :: mid) ++ [b]).length := by
          simp [List.length_append]
        obtain ⟨hf1, hf2⟩ := hfloor.2 hlen
        rw [List.dropLast_concat] at hf1 hf2
        rw [last_line_concat] at hf2
        have hstep : ∀ l ∈ l1 :: mid,
            realized_line_discount
                (apply_discount_to_order_line l
                  (assigned_line_discount undiscounted_subtotal subtotal_discount l))
              = assigned_line_discount undiscounted_subtotal subtotal_discount l := by
          intro l hl
          rw [realized_line_discount_apply l _ (hf1 l hl)]
          have hu := hund l (List.mem_append_left _ hl)
          unfold realized_line_discount
          rw [← hu]
          ring
        have hsum : realized_discounts_sum
            ((l1 :: mid).map
              (fun l => apply_discount_to_order_line l
                (assigned_line_discount undiscounted_subtotal subtotal_discount l)))
            = ((l1 :: mid).map
                (assigned_line_discount undiscounted_subtotal subtotal_discount)).sum := by
          unfold realized_discounts_sum
          rw [List.map_map]
          exact congrArg List.sum (List.map_congr_left (fun l hl => hstep l hl))
        rw [ensure_sum_concat _ _ _ (by rw [hsum]; exact hf2)]
        have hub := hund b (List.mem_append_right _ (by simp))
        unfold realized_line_discount
        rw [← hub]
        ring

/-- C1 counterexample: with a single line of total 10 (equal to its
undiscounted total) and a subtotal discount of 15, the line's resulting total
is floored at zero, the realized discount is 10, and the sum of per-line
discounts differs from the distributed discount. -/
theorem subtotal_discount_claim_counterexample :
    realized_discounts_sum
        (apply_subtotal_discount_to_order_lines
          [⟨1, 10, 10, 10, 10, 10, 10, 0⟩] 10 15)
      ≠ 15 := by
  norm_num [apply_subtotal_discount_to_order_lines, apply_discount_to_order_line,
    realized_discounts_sum, realized_line_discount]

/-- Witness for the amended C1 theorem: two undiscounted lines of totals 10
and 20, undiscounted subtotal 30, discount 5; the first line gets the
quantized share 1.67 and the last line the remainder 3.33, summing to 5. -/
theorem apply_subtotal_discount_distributes_exactly_witness :
    no_floor_hit
        [⟨1, 10, 10, 10, 10, 10, 10, 0⟩, ⟨2, 20, 20, 20, 10, 10, 10, 0⟩] 30 5
    ∧ realized_discounts_sum
        (apply_subtotal_discount_to_order_lines
          [⟨1, 10, 10, 10, 10, 10, 10, 0⟩, ⟨2, 20, 20, 20, 10, 10, 10, 0⟩] 30 5)
      = 5 := by
  constructor
  · constructor
    · intro h
      simp at h
    · intro _
      norm_num [List.dropLast, assigned_line_discount, quantize_price, last_line]
  · exact apply_subtotal_discount_distributes_exactly _ _ _ (by simp)
      (by intro l hl; fin_cases hl <;> rfl)
      (by
        constructor
        · intro h
          simp at h
        · intro _
          norm_num [List.dropLast, assigned_line_discount, quantize_price, last_line])

/-- C2: a manual FIXED order discount is applied to the combined
subtotal-plus-shipping total; the resulting total discount is split with
`subtotal_discount = subtotal / combined * total_discount` and
`shipping_discount = total_discount - subtotal_discount`; a non-positive
combined total leaves both components unchanged. -/
theorem apply_order_discounts_manual_fixed_split (d : OrderDiscount)
    (subtotal shipping : ℚ)
    (htype : d.type = DiscountType.MANUAL)
    (hvt : d.value_type = DiscountValueType.FIXED) :
    (0 < subtotal + shipping →
      apply_order_discounts [d] subtotal shipping =
        (subtotal -
          subtotal / (subtotal + shipping) *
            ((subtotal + shipping)
              - apply_discount_to_value d.value DiscountValueType.FIXED
                  (subtotal + shipping)),
         shipping -
          (((subtotal + shipping)
              - apply_discount_to_value d.value DiscountValueType.FIXED
                  (subtotal + shipping))
            - subtotal / (subtotal + shipping) *
              ((subtotal + shipping)
                - apply_discount_to_value d.value DiscountValueType.FIXED
                    (subtotal + shipping)))))
    ∧ (subtotal + shipping ≤ 0 →
      apply_order_discounts [d] subtotal shipping = (subtotal, shipping)) := by
  have hstep : apply_order_discounts [d] subtotal shipping
      = apply_order_discount_step subtotal shipping d := rfl
  constructor
  · intro hpos
    rw [hstep]
    simp [apply_order_discount_step, htype, hvt, hpos]
  · intro hnonpos
    rw [hstep]
    simp [apply_order_discount_step, htype, hvt, not_lt.mpr hnonpos]

/-- Witness for the C2 theorem: subtotal 80, shipping 20, manual fixed value
10; the combined total is 100, the split is 8 against the subtotal and 2
against the shipping, giving (72, 18). -/
theorem apply_order_discounts_manual_fixed_split_witness :
    (0:ℚ) < 80 + 20 ∧
    apply_order_discounts
        [⟨DiscountType.MANUAL, DiscountValueType.FIXED, 10, none, 0⟩] 80 20
      = (72, 18) := by
  refine ⟨by norm_num, ?_⟩
  have h := (apply_order_discounts_manual_fixed_split
      ⟨DiscountType.MANUAL, DiscountValueType.FIXED, 10, none, 0⟩ 80 20 rfl rfl).1
      (by norm_num)
  rw [h]
  norm_num [apply_discount_to_value, fixed_discount, max_def]

/-- C7: `apply_discount_to_value` subtracts a FIXED value from the price
floored at zero (never negative), and for PERCENTAGE multiplies the price by
`(1 - value/100)` rounded half-up to the currency's minor unit. -/
theorem apply_discount_to_value_spec (value price : ℚ) :
    apply_discount_to_value value DiscountValueType.FIXED price = max (price - value) 0
    ∧ 0 ≤ apply_discount_to_value value DiscountValueType.FIXED price
    ∧ apply_discount_to_value value DiscountValueType.PERCENTAGE price
        = quantize_price (price * (1 - value / 100)) :=
  ⟨rfl, le_max_right _ _, rfl⟩

lemma foldl_best_mem (x : ℕ × ℚ) (xs : List (ℕ × ℚ)) :
    xs.foldl (fun best cur => if best.2 < cur.2 then cur else best) x ∈ x :: xs := by
  induction xs generalizing x with
  | nil => simp
  | cons y ys ih =>
      simp only [List.foldl_cons]
      by_cases h : x.2 < y.2
      · rw [if_pos h]
        rcases List.mem_cons.mp (ih y) with h' | h'
        · rw [h']
          simp
        · exact List.mem_cons_of_mem _ (List.mem_cons_of_mem _ h')
      · rw [if_neg h]
        rcases List.mem_cons.mp (ih x) with h' | h'
        · rw [h']
          simp
        · exact List.mem_cons_of_mem _ (List.mem_cons_of_mem _ h')

lemma foldl_best_le (x : ℕ × ℚ) (xs : List (ℕ × ℚ)) :
    ∀ y ∈ x :: xs,
      y.2 ≤ (xs.foldl (fun best cur => if best.2 < cur.2 then cur else best) x).2 := by
  induction xs generalizing x with
  | nil =>
      intro y hy
      rw [List.mem_singleton.mp hy]
      exact le_refl _
  | cons z zs ih =>
      intro y hy
      simp only [List.foldl_cons]
      by_cases h : x.2 < z.2
      · rw [if_pos h]
        rcases List.mem_cons.mp hy with h1 | h1
        · calc y.2 = x.2 := by rw [h1]
            _ ≤ z.2 := le_of_lt h
            _ ≤ _ := ih z z (by simp)
        · exact ih z y h1
      · rw [if_neg h]
        rcases List.mem_cons.mp hy with h1 | h1
        · exact ih x y (by rw [h1]; exact List.mem_cons_self _ _)
        · rcases List.mem_cons.mp h1 with h2 | h2
          · calc y.2 = z.2 := by rw [h2]
              _ ≤ x.2 := not_lt.mp h
              _ ≤ _ := ih x x (by simp)
          · exact ih x y (List.mem_cons_of_mem _ h2)

lemma get_product_discount_on_promotion_eq_none (rule_info : PromotionRuleInfo)
    (channel : Channel) :
    get_product_discount_on_promotion rule_info channel = none
      ↔ channel.id ∉ rule_info.channel_ids := by
  unfold get_product_discount_on_promotion
  split_ifs with h <;> simp [h]

lemma get_product_discount_on_promotion_eq_some (rule_info : PromotionRuleInfo)
    (channel : Channel) (h : channel.id ∈ rule_info.channel_ids) :
    get_product_discount_on_promotion rule_info channel
      = some (rule_info.rule.id, rule_info.rule.get_discount) := by
  unfold get_product_discount_on_promotion
  rw [if_pos h]

lemma best_of_eq_none (l : List (ℕ × ℚ)) : best_of l = none ↔ l = [] := by
  cases l <;> simp [best_of]

lemma best_of_some_mem (l : List (ℕ × ℚ)) (y : ℕ × ℚ) (h : best_of l = some y) :
    y ∈ l := by
  cases l with
  | nil => exact absurd h (by simp [best_of])
  | cons x xs =>
      have hy := Option.some.inj h
      rw [← hy]
      exact foldl_best_mem x xs

lemma best_of_some_le (l : List (ℕ × ℚ)) (y : ℕ × ℚ) (h : best_of l = some y) :
    ∀ z ∈ l, z.2 ≤ y.2 := by
  cases l with
  | nil => exact absurd h (by simp [best_of])
  | cons x xs =>
      have hy := Option.some.inj h
      intro z hz
      rw [← hy]
      exact foldl_best_le x xs z hz

/-- C3: `get_best_promotion_discount` considers only rules whose channel-id
set contains the channel's id (a rule outside the channel is skipped, never a
fatal error), returns `none` exactly when no rule applies, and otherwise
returns an applicable rule's id with its saving `price - discounted_price`,
maximal among all applicable rules. -/
theorem get_best_promotion_discount_spec (price : ℚ)
    (rules_info : List PromotionRuleInfo) (channel : Channel) :
    (get_best_promotion_discount price rules_info channel = none ↔
      ∀ ri ∈ rules_info, channel.id ∉ ri.channel_ids)
    ∧ (∀ rid saving,
        get_best_promotion_discount price rules_info channel = some (rid, saving) →
          (∃ ri ∈ rules_info, channel.id ∈ ri.channel_ids ∧ ri.rule.id = rid ∧
            saving = price - ri.rule.get_discount price)
          ∧ ∀ ri ∈ rules_info, channel.id ∈ ri.channel_ids →
              price - ri.rule.get_discount price ≤ saving)
    ∧ (∀ ri rest, channel.id ∉ ri.channel_ids →
        get_best_promotion_discount price (ri :: rest) channel
          = get_best_promotion_discount price rest channel) := by
  refine ⟨?_, ?_, ?_⟩
  · unfold get_best_promotion_discount
    rw [best_of_eq_none, List.map_eq_nil, get_product_promotion_discounts,
      List.filterMap_eq_nil]
    constructor
    · intro h ri hri
      exact (get_product_discount_on_promotion_eq_none ri channel).mp (h ri hri)
    · intro h ri hri
      exact (get_product_discount_on_promotion_eq_none ri channel).mpr (h ri hri)
  · intro rid saving h
    unfold get_best_promotion_discount at h
    constructor
    · have hmem := best_of_some_mem _ _ h
      rw [List.mem_map] at hmem
      obtain ⟨p, hp, hfp⟩ := hmem
      rw [get_product_promotion_discounts, List.mem_filterMap] at hp
      obtain ⟨ri, hri, hgi⟩ := hp
      by_cases hc : channel.id ∈ ri.channel_ids
      · rw [get_product_discount_on_promotion_eq_some ri channel hc] at hgi
        have hp' := Option.some.inj hgi
        refine ⟨ri, hri, hc, ?_, ?_⟩
        · have : p.1 = rid := congrArg Prod.fst hfp
          rw [← this, ← hp']
        · have h2 : price - p.2 price = saving := congrArg Prod.snd hfp
          rw [← h2, ← hp']
      · rw [(get_product_discount_on_promotion_eq_none ri channel).mpr hc] at hgi
        exact absurd hgi (by simp)
    · intro ri hri hc
      have hin : (ri.rule.id, price - ri.rule.get_discount price)
          ∈ (get_product_promotion_discounts rules_info channel).map
              (fun p => (p.1, price - p.2 price)) := by
        rw [List.mem_map]
        refine ⟨(ri.rule.id, ri.rule.get_discount), ?_, rfl⟩
        rw [get_product_promotion_discounts, List.mem_filterMap]
        exact ⟨ri, hri, get_product_discount_on_promotion_eq_some ri channel hc⟩
      exact best_of_some_le _ _ h _ hin
  · intro ri rest h
    unfold get_best_promotion_discount get_product_promotion_discounts
    rw [List.filterMap_cons,
      (get_product_discount_on_promotion_eq_none ri channel).mpr h]


/-- Witness for the C3 theorem: channel 1, two applicable fixed rules with
savings 5 and 8 and one rule outside the channel; the best pair is `(9, 8)`
and every applicable saving is bounded by 8. -/
theorem get_best_promotion_discount_spec_witness :
    get_best_promotion_discount 100 sample_rules_info ⟨1⟩ = some (9, 8)
    ∧ 100 - sample_rule_a.get_discount 100 ≤ 8 := by
  have hres : get_best_promotion_discount 100 sample_rules_info ⟨1⟩ = some (9, 8) := by
    norm_num [get_best_promotion_discount, get_product_promotion_discounts,
      get_product_discount_on_promotion, sample_rules_info, sample_rule_a, sample_rule_b,
      sample_rule_off, PromotionRule.get_discount, apply_discount_to_value, fixed_discount,
      best_of, max_def, List.filterMap_cons]
  refine ⟨hres, ?_⟩
  exact ((get_best_promotion_discount_spec 100 sample_rules_info ⟨1⟩).2.1 9 8 hres).2
    ⟨sample_rule_a, [1]⟩ (by simp [sample_rules_info]) (by simp)

lemma set_checkout_base_prices_voucher (s sh : ℚ) (ci : CheckoutInfo) :
    (set_checkout_base_prices s sh ci).checkout.voucher_code
      = ci.checkout.voucher_code := rfl

lemma set_checkout_base_prices_discounts (s sh : ℚ) (ci : CheckoutInfo) :
    (set_checkout_base_prices s sh ci).discounts = ci.discounts := rfl

lemma clear_checkout_discount_discounts (ci : CheckoutInfo) (save : Bool) :
    (clear_checkout_discount ci save).discounts
      = ci.discounts.filter (fun d => d.type ≠ DiscountType.ORDER_PROMOTION) := by
  simp only [clear_checkout_discount]
  split_ifs <;> simp_all

lemma clear_checkout_discount_checkout_of_truthy (ci : CheckoutInfo) (save : Bool)
    (h : truthy_code ci.checkout.voucher_code = true) :
    (clear_checkout_discount ci save).checkout = ci.checkout := by
  simp only [clear_checkout_discount]
  split_ifs <;> simp_all

lemma clear_checkout_discount_checkout_of_falsy (ci : CheckoutInfo) (save : Bool)
    (h : truthy_code ci.checkout.voucher_code = false) :
    (clear_checkout_discount ci save).checkout
      = { ci.checkout with
          discount_amount := 0
          discount_name := none
          translated_discount_name := none } := by
  simp only [clear_checkout_discount]
  split_ifs <;> simp_all

/-- C4: with a (truthy) voucher code set on the checkout,
`create_discount_objects_for_order_promotions` skips order-level promotion
evaluation entirely (the result does not depend on the fetched rules) and
deletes every existing ORDER_PROMOTION discount record of the checkout. -/
theorem order_promotion_skipped_when_voucher_set
    (base_subtotal base_shipping : ℚ) (rules rules' : List PromotionRule)
    (ci : CheckoutInfo) (save : Bool) (v : String)
    (hv : ci.checkout.voucher_code = some v) (hne : v ≠ "") :
    ((create_discount_objects_for_order_promotions base_subtotal base_shipping rules
        ci save).discounts
      = ci.discounts.filter (fun d => d.type ≠ DiscountType.ORDER_PROMOTION))
    ∧ (∀ d ∈ (create_discount_objects_for_order_promotions base_subtotal base_shipping
          rules ci save).discounts,
        d.type ≠ DiscountType.ORDER_PROMOTION)
    ∧ create_discount_objects_for_order_promotions base_subtotal base_shipping rules ci save
        = create_discount_objects_for_order_promotions base_subtotal base_shipping rules'
            ci save := by
  have htr : truthy_code
      (set_checkout_base_prices base_subtotal base_shipping ci).checkout.voucher_code
      = true := by
    rw [set_checkout_base_prices_voucher, hv]
    simp [truthy_code, hne]
  have hred : ∀ rs : List PromotionRule,
      create_discount_objects_for_order_promotions base_subtotal base_shipping rs ci save
        = clear_checkout_discount
            (set_checkout_base_prices base_subtotal base_shipping ci) save := by
    intro rs
    simp only [create_discount_objects_for_order_promotions]
    rw [if_pos htr]
  refine ⟨?_, ?_, ?_⟩
  · rw [hred rules, clear_checkout_discount_discounts, set_checkout_base_prices_discounts]
  · intro d hd
    rw [hred rules, clear_checkout_discount_discounts] at hd
    rw [List.mem_filter] at hd
    simpa using hd.2
  · rw [hred rules, hred rules']

/-- Witness for the C4 theorem: a checkout with voucher code "CODE" and one
ORDER_PROMOTION plus one VOUCHER discount record keeps only the latter. -/
theorem order_promotion_skipped_when_voucher_set_witness :
    sample_checkout_voucher.checkout.voucher_code = some "CODE"
    ∧ (create_discount_objects_for_order_promotions 100 10 [sample_rule_a]
        sample_checkout_voucher false).discounts = [sample_voucher_rec] := by
  refine ⟨rfl, ?_⟩
  have h := (order_promotion_skipped_when_voucher_set 100 10 [sample_rule_a] []
    sample_checkout_voucher false "CODE" rfl (by simp)).1
  rw [h]
  simp [sample_checkout_voucher, sample_order_promo_rec, sample_voucher_rec]

/-- C10: with a truthy voucher code set, `_clear_checkout_discount` deletes
the checkout's ORDER_PROMOTION discount records but leaves the denormalized
`discount_amount`, `discount_name` and `translated_discount_name` fields
unchanged; the three fields are reset to 0/None/None exactly when no truthy
voucher code is present. -/
theorem clear_checkout_discount_frame (ci : CheckoutInfo) (save : Bool) :
    (∀ v, ci.checkout.voucher_code = some v → v ≠ "" →
      (clear_checkout_discount ci save).discounts
          = ci.discounts.filter (fun d => d.type ≠ DiscountType.ORDER_PROMOTION)
        ∧ (clear_checkout_discount ci save).checkout.discount_amount
            = ci.checkout.discount_amount
        ∧ (clear_checkout_discount ci save).checkout.discount_name
            = ci.checkout.discount_name
        ∧ (clear_checkout_discount ci save).checkout.translated_discount_name
            = ci.checkout.translated_discount_name)
    ∧ (truthy_code ci.checkout.voucher_code = false →
      (clear_checkout_discount ci save).checkout.discount_amount = 0
        ∧ (clear_checkout_discount ci save).checkout.discount_name = none
        ∧ (clear_checkout_discount ci save).checkout.translated_discount_name = none) := by
  constructor
  · intro v hv hne
    have htr : truthy_code ci.checkout.voucher_code = true := by
      rw [hv]
      simp [truthy_code, hne]
    have hck := clear_checkout_discount_checkout_of_truthy ci save htr
    exact ⟨clear_checkout_discount_discounts ci save,
      by rw [hck], by rw [hck], by rw [hck]⟩
  · intro hf
    have hck := clear_checkout_discount_checkout_of_falsy ci save hf
    exact ⟨by rw [hck], by rw [hck], by rw [hck]⟩

/-- Witness for the C10 theorem: a voucher-bearing checkout keeps its
denormalized fields, a voucherless one is reset. -/
theorem clear_checkout_discount_frame_witness :
    (clear_checkout_discount sample_checkout_voucher false).checkout.discount_amount = 5
    ∧ (clear_checkout_discount sample_checkout_voucher false).checkout.discount_name
        = some "Promo"
    ∧ (clear_checkout_discount sample_checkout_no_voucher false).checkout.discount_amount
        = 0 := by
  have h1 := (clear_checkout_discount_frame sample_checkout_voucher false).1 "CODE" rfl
    (by simp)
  have h2 := (clear_checkout_discount_frame sample_checkout_no_voucher false).2 rfl
  exact ⟨by rw [h1.2.1]; rfl, by rw [h1.2.2.1]; rfl, h2.1⟩


lemma filter_rows_of_not_mem (code_str email : String) (rows : List (String × String))
    (h : (code_str, email) ∉ rows) :
    rows.filter (fun r => ¬(r.1 = code_str ∧ r.2 = email)) = rows := by
  rw [List.filter_eq_self]
  intro r hr
  simp only [decide_eq_true_eq]
  rintro ⟨h1, h2⟩
  exact h (by rw [← h1, ← h2]; exact hr)

/-- C6 (amended): for a nonempty customer email and a starting state without
a pre-existing (code, email) usage row, `increase_voucher_usage` followed by
`release_voucher_code_usage` with the same arguments restores the code's
`used` counter, sets a single-use code's `is_active` flag to true, and deletes
the per-customer usage row created by the increase. -/
theorem increase_release_restores (voucher : Voucher) (code : VoucherCode)
    (customer_email : String) (rows : List (String × String))
    (hemail : customer_email ≠ "")
    (hrow : (code.code, customer_email) ∉ rows) :
    increase_then_release voucher code customer_email rows
      = some ({ code with is_active := if voucher.single_use then true else code.is_active },
          rows) := by
  obtain ⟨vt, ul, aopc, su⟩ := voucher
  obtain ⟨cs, vid, u, act⟩ := code
  have hkeep := filter_rows_of_not_mem cs customer_email rows hrow
  by_cases hul : ul = 0 <;> cases aopc <;> cases su <;>
    simp_all [increase_then_release, increase_voucher_usage, release_voucher_code_usage,
      increase_voucher_code_usage_value, decrease_voucher_code_usage_value,
      deactivate_voucher_code, activate_voucher_code, add_voucher_usage_by_customer,
      remove_voucher_usage_by_customer, hemail, List.filter_append]


/-- C6 counterexample: with the empty customer email (falsy in Python),
`increase_voucher_usage` on an apply-once-per-customer voucher records a
(code, \"\") usage row but `release_voucher_code_usage` skips the deletion
(`if user_email:`), so the rows after the round trip differ from the rows
before. -/
theorem increase_release_counterexample :
    (increase_then_release ⟨VoucherType.ENTIRE_ORDER, 1, true, false⟩
        ⟨"X", 1, 0, true⟩ "" []).map (fun p => p.2)
      ≠ some [] := by decide

/-- Witness for the amended C6 theorem at a concrete single-use voucher with
usage limit 1. -/
theorem increase_release_restores_witness :
    ("a" : String) ≠ ""
    ∧ (("X", "a") ∉ ([] : List (String × String)))
    ∧ increase_then_release ⟨VoucherType.ENTIRE_ORDER, 1, true, true⟩
        ⟨"X", 1, 0, true⟩ "a" []
      = some (⟨"X", 1, 0, true⟩, []) := by
  refine ⟨by simp, by simp, ?_⟩
  have h := increase_release_restores ⟨VoucherType.ENTIRE_ORDER, 1, true, true⟩
    ⟨"X", 1, 0, true⟩ "a" [] (by simp) (by simp)
  simpa using h

/-- C8: `add_voucher_usage_by_customer` creates the (code, email) usage row
when none exists and raises `NotApplicable` with the message that the offer
is only valid once per customer exactly when the row already exists. -/
theorem add_voucher_usage_once_per_customer (code : VoucherCode)
    (customer_email : String) (rows : List (String × String)) :
    ((code.code, customer_email) ∉ rows →
      add_voucher_usage_by_customer code customer_email rows
        = .ok (rows ++ [(code.code, customer_email)]))
    ∧ ((code.code, customer_email) ∈ rows →
      add_voucher_usage_by_customer code customer_email rows
        = .error "This offer is only valid once per customer.") := by
  constructor <;> intro h <;> simp [add_voucher_usage_by_customer, h]

/-- Witness for the C8 theorem: both branches at concrete rows. -/
theorem add_voucher_usage_once_per_customer_witness :
    (("X", "a") ∉ ([] : List (String × String)))
    ∧ add_voucher_usage_by_customer ⟨"X", 1, 0, true⟩ "a" [] = .ok [("X", "a")]
    ∧ (("X", "a") ∈ [("X", "a")])
    ∧ add_voucher_usage_by_customer ⟨"X", 1, 0, true⟩ "a" [("X", "a")]
        = .error "This offer is only valid once per customer." := by
  refine ⟨by simp, ?_, by simp, ?_⟩
  · exact (add_voucher_usage_once_per_customer ⟨"X", 1, 0, true⟩ "a" []).1 (by simp)
  · exact (add_voucher_usage_once_per_customer ⟨"X", 1, 0, true⟩ "a" [("X", "a")]).2
      (by simp)

/-- C9: on a voucher with `usage_limit = 1` and `single_use = true`, the
first use sets the code's `used` counter to 1 and its `is_active` flag to
false, and any subsequent `get_voucher_code_instance` lookup of that code
raises `InvalidPromoCode` because the code is no longer active. -/
theorem voucher_single_use_exhaustion (voucher : Voucher) (code : VoucherCode)
    (customer_email : String) (rows : List (String × String))
    (hlimit : voucher.usage_limit = 1) (hsingle : voucher.single_use = true)
    (hused : code.used = 0) (hrow : (code.code, customer_email) ∉ rows) :
    ∃ c₁ rows₁,
      increase_voucher_usage voucher code customer_email true rows = .ok (c₁, rows₁)
      ∧ c₁.used = 1 ∧ c₁.is_active = false ∧ c₁.code = code.code
      ∧ ∀ active_voucher_ids,
          get_voucher_code_instance active_voucher_ids [c₁] code.code
            = .error "InvalidPromoCode" := by
  obtain ⟨vt, ul, aopc, su⟩ := voucher
  obtain ⟨cs, vid, u, act⟩ := code
  simp only at hlimit hsingle hused
  subst hlimit hsingle hused
  refine ⟨⟨cs, vid, 1, false⟩, if aopc then rows ++ [(cs, customer_email)] else rows,
    ?_, rfl, rfl, rfl, ?_⟩
  · cases aopc <;>
      simp_all [increase_voucher_usage, increase_voucher_code_usage_value,
        deactivate_voucher_code, add_voucher_usage_by_customer]
  · intro ids
    simp [get_voucher_code_instance]

/-- Witness for the C9 theorem at a concrete voucher and code. -/
theorem voucher_single_use_exhaustion_witness :
    (("X", "a") ∉ ([] : List (String × String)))
    ∧ ∃ c₁ rows₁,
        increase_voucher_usage ⟨VoucherType.ENTIRE_ORDER, 1, false, true⟩
            ⟨"X", 1, 0, true⟩ "a" true [] = .ok (c₁, rows₁)
        ∧ c₁.used = 1 ∧ c₁.is_active = false ∧ c₁.code = "X"
        ∧ ∀ active_voucher_ids,
            get_voucher_code_instance active_voucher_ids [c₁] "X"
              = .error "InvalidPromoCode" := by
  refine ⟨by simp, ?_⟩
  exact voucher_single_use_exhaustion ⟨VoucherType.ENTIRE_ORDER, 1, false, true⟩
    ⟨"X", 1, 0, true⟩ "a" [] rfl rfl rfl (by simp)



lemma foldl_upsert_of_fresh (ds : List CheckoutLineDiscount) :
    ∀ acc : List (Option ℕ × CheckoutLineDiscount),
      (∀ d ∈ ds, ∀ p ∈ acc, p.1 ≠ d.promotion_rule_id) →
      (ds.map (fun d => d.promotion_rule_id)).Nodup →
      ds.foldl (fun m d => dict_upsert m d.promotion_rule_id d) acc
        = acc ++ ds.map (fun d => (d.promotion_rule_id, d)) := by
  induction ds with
  | nil =>
      intro acc _ _
      simp
  | cons d ds ih =>
      intro acc hfresh hnodup
      simp only [List.foldl_cons]
      have hany : acc.any (fun p => p.1 = d.promotion_rule_id) = false := by
        rw [List.any_eq_false]
        intro p hp
        simpa using hfresh d (List.mem_cons_self _ _) p hp
      have hupsert : dict_upsert acc d.promotion_rule_id d
          = acc ++ [(d.promotion_rule_id, d)] := by
        unfold dict_upsert
        rw [hany]
        simp
      rw [hupsert, ih (acc ++ [(d.promotion_rule_id, d)]) ?_ (List.nodup_cons.mp hnodup).2]
      · simp
      · intro e he p hp
        rcases List.mem_append.mp hp with hp' | hp'
        · exact hfresh e (List.mem_cons_of_mem _ he) p hp'
        · have hpd : p = (d.promotion_rule_id, d) := List.mem_singleton.mp hp'
          rw [hpd]
          intro hkey
          have hkey' : d.promotion_rule_id = e.promotion_rule_id := hkey
          have hdk : d.promotion_rule_id ∉ ds.map (fun d => d.promotion_rule_id) :=
            (List.nodup_cons.mp hnodup).1
          exact hdk (by rw [hkey']; exact List.mem_map_of_mem _ he)

lemma rule_id_to_discount_dict_of_nodup (ds : List CheckoutLineDiscount)
    (h : (ds.map (fun d => d.promotion_rule_id)).Nodup) :
    rule_id_to_discount_dict ds = ds.map (fun d => (d.promotion_rule_id, d)) := by
  unfold rule_id_to_discount_dict
  rw [foldl_upsert_of_fresh ds [] (by simp) h]
  simp

lemma mem_stale_ids (rules_info : List VariantPromotionRuleInfo)
    (ds : List CheckoutLineDiscount)
    (hnodup : (ds.map (fun d => d.promotion_rule_id)).Nodup)
    (d : CheckoutLineDiscount) (hd : d ∈ ds)
    (hnot : ∀ ri ∈ rules_info, some ri.rule.id ≠ d.promotion_rule_id) :
    d.id ∈ get_discounts_that_are_not_valid_anymore rules_info
      (rule_id_to_discount_dict ds) := by
  rw [rule_id_to_discount_dict_of_nodup ds hnodup]
  unfold get_discounts_that_are_not_valid_anymore
  rw [List.mem_map]
  refine ⟨(d.promotion_rule_id, d), ?_, rfl⟩
  rw [List.mem_filter]
  refine ⟨List.mem_map_of_mem _ hd, ?_⟩
  rw [decide_eq_true_eq]
  intro hmem
  rw [List.mem_map] at hmem
  obtain ⟨ri, hri, hri_eq⟩ := hmem
  exact hnot ri hri hri_eq

/-- C5: after `create_discount_objects_for_catalogue_promotions`, a line whose
computed catalogue discount amount is zero has its in-memory discount list
cleared and all of its promotion discount records marked for deletion, and on
any other line every promotion record whose rule id no longer appears among
the line's qualifying rules is marked for deletion (the `rule_id_to_discount`
dict requires the line's promotion records to carry distinct rule ids). -/
theorem catalogue_promotion_discount_sync (lines_info : List CheckoutLineInfo)
    (i : ℕ) (li : CheckoutLineInfo) (hget : lines_info[i]? = some li)
    (hkeys : ((get_promotion_discounts li).map (fun d => d.promotion_rule_id)).Nodup) :
    ∃ li',
      (create_discount_objects_for_catalogue_promotions lines_info).lines_info[i]?
          = some li'
      ∧ (get_discount_amount li.channel_listing li.line.quantity = 0 →
          li'.discounts = []
          ∧ ∀ d ∈ get_promotion_discounts li,
              d.id ∈ (create_discount_objects_for_catalogue_promotions
                lines_info).line_discount_ids_to_remove)
      ∧ (get_discount_amount li.channel_listing li.line.quantity ≠ 0 →
          ∀ d ∈ get_promotion_discounts li,
            (∀ ri ∈ li.rules_info, some ri.rule.id ≠ d.promotion_rule_id) →
              d.id ∈ (create_discount_objects_for_catalogue_promotions
                lines_info).line_discount_ids_to_remove) := by
  have hchunk : ∀ x ∈ (process_catalogue_line li).removed_ids,
      x ∈ (create_discount_objects_for_catalogue_promotions
        lines_info).line_discount_ids_to_remove := by
    intro x hx
    show x ∈ ((lines_info.map process_catalogue_line).map
      (fun r => r.removed_ids)).flatten
    rw [List.mem_flatten]
    exact ⟨(process_catalogue_line li).removed_ids,
      List.mem_map_of_mem _ (List.mem_map_of_mem _ (List.getElem?_mem hget)), hx⟩
  refine ⟨(process_catalogue_line li).line_info, ?_, ?_, ?_⟩
  · show ((lines_info.map process_catalogue_line).map (fun r => r.line_info))[i]?
        = some (process_catalogue_line li).line_info
    rw [List.getElem?_map, List.getElem?_map, hget]
    rfl
  · intro hzero
    have hproc : process_catalogue_line li
        = { line_info := { li with discounts := [] }
            created := []
            updated := []
            removed_ids := (get_promotion_discounts li).map (fun d => d.id) } := by
      unfold process_catalogue_line
      rw [if_pos hzero]
    constructor
    · rw [hproc]
    · intro d hd
      apply hchunk
      rw [hproc]
      exact List.mem_map_of_mem _ hd
  · intro hnz d hd hnot
    apply hchunk
    have hproc : (process_catalogue_line li).removed_ids
        = get_discounts_that_are_not_valid_anymore li.rules_info
            (rule_id_to_discount_dict (get_promotion_discounts li)) := by
      unfold process_catalogue_line
      rw [if_neg hnz]
    rw [hproc]
    exact mem_stale_ids li.rules_info (get_promotion_discounts li) hkeys d hd hnot



/-- Witness for the C5 theorem: a zero-amount line with promotion record 11
is cleared with record 11 deleted, and a discounted line qualifying only for
rule 7 has its stale record 22 (rule 5) deleted. -/
theorem catalogue_promotion_discount_sync_witness :
    ([sample_line_zero, sample_line_live][0]? = some sample_line_zero)
    ∧ (∃ li',
        (create_discount_objects_for_catalogue_promotions
          [sample_line_zero, sample_line_live]).lines_info[0]? = some li'
        ∧ li'.discounts = [])
    ∧ 11 ∈ (create_discount_objects_for_catalogue_promotions
        [sample_line_zero, sample_line_live]).line_discount_ids_to_remove
    ∧ 22 ∈ (create_discount_objects_for_catalogue_promotions
        [sample_line_zero, sample_line_live]).line_discount_ids_to_remove := by
  have hz : get_discount_amount sample_line_zero.channel_listing
      sample_line_zero.line.quantity = 0 := by
    norm_num [get_discount_amount, sample_line_zero]
  have hnz : get_discount_amount sample_line_live.channel_listing
      sample_line_live.line.quantity ≠ 0 := by
    norm_num [get_discount_amount, sample_line_live]
  obtain ⟨li', h1, h2, h3⟩ := catalogue_promotion_discount_sync
    [sample_line_zero, sample_line_live] 0 sample_line_zero rfl
    (by simp [get_promotion_discounts, sample_line_zero, sample_line_disc_11])
  obtain ⟨li2, g1, g2, g3⟩ := catalogue_promotion_discount_sync
    [sample_line_zero, sample_line_live] 1 sample_line_live rfl
    (by simp [get_promotion_discounts, sample_line_live, sample_line_disc_22])
  refine ⟨rfl, ⟨li', h1, (h2 hz).1⟩, ?_, ?_⟩
  · have := (h2 hz).2 sample_line_disc_11
      (by simp [get_promotion_discounts, sample_line_zero, sample_line_disc_11])
    simpa [sample_line_disc_11] using this
  · have := g3 hnz sample_line_disc_22
      (by simp [get_promotion_discounts, sample_line_live, sample_line_disc_22])
      (by
        intro ri hri
        simp only [sample_line_live, List.mem_singleton] at hri
        rw [hri]
        simp [sample_rule_a, sample_line_disc_22])
    simpa [sample_line_disc_22] using this


end Saleor
